import Mathlib

/-
Verification of `pwnlib/log.py`: a shallow embedding of its data model
(log records, the `Progress` state machine, the `Logger` facade, the
`Formatter`) together with proofs about throttling, terminal idempotence,
scoped exit, one-time deduplication, level resolution and message layout.

Conventions of the embedding:
- Python wall-clock times (`time.time()`, seconds since the epoch) are
  rationals `ℚ`; the throttle threshold `0.1` seconds is `1/10`.
- Log levels are the numeric values of the `logging` module.
- Emitting a record to the underlying sink is modelled by returning the
  record(s) produced by a call; stateful objects are explicit state values
  threaded through the operations.
-/

namespace PwnlibLog

/-- Numeric log levels of Python's `logging` module (`logging.NOTSET`). -/
def NOTSET : Nat := 0

/-- `logging.DEBUG`. -/
def DEBUG : Nat := 10

/-- `logging.INFO`. -/
def INFO : Nat := 20

/-- `logging.WARNING`. -/
def WARNING : Nat := 30

/-- `logging.ERROR`. -/
def ERROR : Nat := 40

/-- `logging.CRITICAL`. -/
def CRITICAL : Nat := 50

/-- Python `%`-formatting of a message with a tuple of positional string
arguments, restricted to the `%s` conversion (and `%%` escapes), which is
all `pwnlib.log` relies on: each `%s` consumes the next argument. -/
def pyFmtL : List Char → List String → List Char
  | '%' :: 's' :: rest, a :: as => a.data ++ pyFmtL rest as
  | '%' :: '%' :: rest, as => '%' :: pyFmtL rest as
  | c :: rest, as => c :: pyFmtL rest as
  | [], _ => []

/-- `message % args` on strings. -/
def pyFmt (message : String) (args : List String) : String :=
  ⟨pyFmtL message.data args⟩

/-- A log record as produced by `Logger._log`: the level, the unformatted
message, the positional arguments, the `pwnlib_msgtype` tag placed in the
record's `extra` field (`none` for untagged records, mirroring
`Logger.log`), and whether `pwnlib_progress` in `extra` holds a
back-reference to the originating `Progress` (rather than `None`). -/
structure Record where
  level : Nat
  msg : String
  args : List String
  msgtype : Option String
  progressRef : Bool
deriving DecidableEq, Repr

/-- `logging.LogRecord.getMessage`: the default renderer substitutes the
positional arguments into the message only when some are present. -/
def Record.getMessage (r : Record) : String :=
  if r.args.isEmpty then r.msg else pyFmt r.msg r.args

/-- `Logger._log(level, msg, args, kwargs, msgtype, progress)`: builds the
record handed to the underlying sink, with `pwnlib_msgtype` and
`pwnlib_progress` set in `extra`. -/
def Logger._log (level : Nat) (msg : String) (args : List String)
    (msgtype : Option String) (progressRef : Bool) : Record :=
  { level := level, msg := msg, args := args, msgtype := msgtype,
    progressRef := progressRef }

/-- The exception raised by `Logger.error`, carrying the formatted
message (`PwnlibException(message % args)`). -/
structure PwnlibException where
  message : String
deriving DecidableEq, Repr

/-- `Logger.info(message, *args)`: one INFO record tagged `info`. -/
def Logger.info (message : String) (args : List String) : List Record :=
  [Logger._log INFO message args (some "info") false]

/-- `Logger.error(message, *args)`: logs an error record, then raises
`PwnlibException(message % args)`.  The raise is modelled by the
`Except.error` outcome paired with the emitted records. -/
def Logger.error (message : String) (args : List String) :
    List Record × Except PwnlibException Unit :=
  ([Logger._log ERROR message args (some "error") false],
   Except.error ⟨pyFmt message args⟩)

/-- The state of a `Progress` object: base message `_msg`, stored status
text `_status`, emit level `_level`, terminal flag `_stopped`, and the
time of the last accepted status update `last_status` (seconds). -/
structure Progress where
  _msg : String
  _status : String
  _level : Nat
  _stopped : Bool
  last_status : ℚ
deriving DecidableEq, Repr

/-- `Progress._log(status, args, kwargs, msgtype)`: no record once the
progress logger is stopped; otherwise compose `msg = self._msg`,
`if msg and status: msg += ': '`, `msg += status` and emit one record at
`self._level` carrying a back-reference to this `Progress`. -/
def Progress._log (p : Progress) (status : String) (args : List String)
    (msgtype : String) : List Record :=
  if p._stopped then []
  else
    let msg := p._msg
    let msg := if msg ≠ "" ∧ status ≠ "" then msg ++ ": " else msg
    let msg := msg ++ status
    [Logger._log p._level msg args (some msgtype) true]

/-- `Progress.__init__(logger, msg, status, level, args, kwargs)`: store
the attributes, set `last_status = 0`, emit the initial `status` record,
then reset `last_status` to 0 again so that the first explicit `status()`
call is never throttled by the construction-time emission. -/
def Progress.__init__ (msg status : String) (level : Nat)
    (args : List String) : Progress × List Record :=
  let p : Progress :=
    { _msg := msg, _status := status, _level := level, _stopped := false,
      last_status := 0 }
  let recs := p._log status args "status"
  ({ p with last_status := 0 }, recs)

/-- `Progress.status(status, *args)` at wall-clock time `now`
(`now = time.time()`): if `(now - self.last_status) > 0.1` record the new
timestamp and log a `status` record; otherwise do nothing. -/
def Progress.status (p : Progress) (status : String) (args : List String)
    (now : ℚ) : Progress × List Record :=
  if now - p.last_status > 1/10 then
    let p' := { p with last_status := now }
    (p', p'._log status args "status")
  else (p, [])

/-- `Progress.success(status='Done', *args)`: log a `success` record,
then set `self._stopped = True`. -/
def Progress.success (p : Progress) (status : String)
    (args : List String) : Progress × List Record :=
  ({ p with _stopped := true }, p._log status args "success")

/-- `Progress.failure(status='Failed', *args)`: log a `failure` record,
then set `self._stopped = True`. -/
def Progress.failure (p : Progress) (status : String)
    (args : List String) : Progress × List Record :=
  ({ p with _stopped := true }, p._log status args "failure")

/-- `Progress.__exit__(exc_typ, exc_val, exc_tb)`: `success()` when no
exception is in flight (`exc_typ is None`), `failure()` otherwise; the
defaults `'Done'`/`'Failed'` are the source's default arguments. -/
def Progress.__exit__ (p : Progress) (exc_typ : Option String) :
    Progress × List Record :=
  match exc_typ with
  | none => p.success "Done" []
  | some _ => p.failure "Failed" []

/-- The root logger's monkey-patched level getter:
`self._level or min(context.log_level, logging.INFO)` — a Python `or`
falls through exactly when `_level` is the falsy `0` (= `NOTSET`, the
value installed at module load, meaning no explicit level was set). -/
def rootlogger_level (_level : Nat) (context_log_level : Nat) : Nat :=
  if _level ≠ 0 then _level else min context_log_level INFO

/-- A scope body that only issues `status` updates: each entry holds the
status text, its positional args and the wall-clock instant of the call;
the body's calls run left to right against the `Progress`. -/
def runStatuses (p : Progress) :
    List (String × List String × ℚ) → Progress × List Record
  | [] => (p, [])
  | (t, a, n) :: rest =>
    let step := p.status t a n
    let out := runStatuses step.1 rest
    (out.1, step.2 ++ out.2)

/-- `with logger.progress(msg, status) as p: <body>`: construction, the
body's status updates, then `Progress.__exit__` with the in-flight
exception type (`none` on normal exit), collecting every emitted
record. -/
def withProgress (msg status : String) (level : Nat)
    (args : List String) (body : List (String × List String × ℚ))
    (exc_typ : Option String) : Progress × List Record :=
  let ini := Progress.__init__ msg status level args
  let mid := runStatuses ini.1 body
  let fin := Progress.__exit__ mid.1 exc_typ
  (fin.1, ini.2 ++ mid.2 ++ fin.2)

/-- The class-level deduplication state of `Logger`, shared by every
instance in the process: `_one_time_infos = set()` and
`_one_time_warnings = set()`. -/
structure OnceState where
  _one_time_infos : Finset String
  _one_time_warnings : Finset String
deriving DecidableEq

/-- The shared sets start empty, once per process lifetime. -/
def initialOnceState : OnceState := ⟨∅, ∅⟩

/-- `Logger.info_once(message, *args)`: render `m = message % args`; if
`m` is already in the shared set the call is silently skipped, otherwise
`m` is added and one INFO record tagged `info_once` is emitted. -/
def Logger.info_once (s : OnceState) (message : String)
    (args : List String) : OnceState × List Record :=
  let m := pyFmt message args
  if m ∈ s._one_time_infos then (s, [])
  else ({ s with _one_time_infos := insert m s._one_time_infos },
        [Logger._log INFO message args (some "info_once") false])

/-- `Logger.warning_once(message, *args)`: same as `info_once` over the
shared `_one_time_warnings` set, at WARNING level, tagged
`warning_once`. -/
def Logger.warning_once (s : OnceState) (message : String)
    (args : List String) : OnceState × List Record :=
  let m := pyFmt message args
  if m ∈ s._one_time_warnings then (s, [])
  else ({ s with _one_time_warnings := insert m s._one_time_warnings },
        [Logger._log WARNING message args (some "warning_once") false])

/-- One `info_once`/`warning_once` call in a process-wide trace.  The
logger name records which `Logger` instance made the call; the dedup
sets are class attributes, so the name plays no role in deduplication. -/
inductive OnceCall where
  | info (loggerName message : String) (args : List String)
  | warning (loggerName message : String) (args : List String)
deriving DecidableEq

/-- Run a trace of one-time calls against the shared dedup state. -/
def runOnce (s : OnceState) : List OnceCall → OnceState × List Record
  | [] => (s, [])
  | OnceCall.info _ msg args :: rest =>
    let step := Logger.info_once s msg args
    let out := runOnce step.1 rest
    (out.1, step.2 ++ out.2)
  | OnceCall.warning _ msg args :: rest =>
    let step := Logger.warning_once s msg args
    let out := runOnce step.1 rest
    (out.1, step.2 ++ out.2)

/-- Python `str.splitlines()` restricted to the line boundaries `\r\n`,
`\r` and `\n`: every boundary ends a line, and a final line is kept only
when non-empty (no trailing empty line for a trailing newline). -/
def splitlinesList : List Char → List (List Char)
  | [] => []
  | '\n' :: rest => [] :: splitlinesList rest
  | '\r' :: '\n' :: rest => [] :: splitlinesList rest
  | '\r' :: rest => [] :: splitlinesList rest
  | c :: rest =>
    match splitlinesList rest with
    | [] => [[c]]
    | l :: ls => (c :: l) :: ls

/-- Python `sep.join(lines)` over characters. -/
def joinL (sep : List Char) : List (List Char) → List Char
  | [] => []
  | [x] => x
  | x :: xs => x ++ sep ++ joinL sep xs

/-- The `_msgtype_prefixes` table mapping message-type tags to glyphs.
The colour markup (`text.magenta` etc.) contributes no characters when
the stream is not a tty, so each glyph is the plain string. -/
def _msgtype_pfxs : List (String × String) :=
  [("status", "x"), ("success", "+"), ("failure", "-"),
   ("debug", "DEBUG"), ("info", "*"), ("warning", "!"),
   ("error", "ERROR"), ("exception", "ERROR"),
   ("critical", "CRITICAL"), ("info_once", "*"), ("warning_once", "!")]

/-- Python `dict` lookup, used for `msgtype in _msgtype_prefixes` and
`_msgtype_prefixes[msgtype]`. -/
def lookupG : List (String × String) → String → Option String
  | [], _ => none
  | (k, v) :: rest, t => if t = k then some v else lookupG rest t

/-- `Formatter.indent`: the four-space indentation. -/
def Formatter.indent : String := "    "

/-- `Formatter.nlindent`: newline followed by the indent. -/
def Formatter.nlindent : String := "\n" ++ Formatter.indent

/-- `Formatter.format(record)`: default-render the record first; records
without a `pwnlib_msgtype` pass through unchanged; otherwise compute the
glyph prefix (the 4-space indent for `indented`, nothing for `animated`,
`[?] ` as the defensive fallback), prepend it, and re-join the
`splitlines()` of the result over `nlindent`. -/
def Formatter.format (r : Record) : String :=
  let msg := r.getMessage
  match r.msgtype with
  | none => msg
  | some t =>
    let pfx : String :=
      match lookupG _msgtype_pfxs t with
      | some g => "[" ++ g ++ "] "
      | none =>
        if t = "indented" then Formatter.indent
        else if t = "animated" then ""
        else "[?] "
    ⟨joinL Formatter.nlindent.data (splitlinesList (pfx ++ msg).data)⟩

/-- `Progress.status` beyond the throttle window: timestamp recorded and
the update logged. -/
theorem status_accept (p : Progress) (text : String) (args : List String)
    (now : ℚ) (h : now - p.last_status > 1/10) :
    p.status text args now =
      ({ p with last_status := now },
       Progress._log { p with last_status := now } text args "status") := by
  unfold Progress.status
  rw [if_pos h]

/-- `Progress.status` within the throttle window: a silent no-op. -/
theorem status_reject (p : Progress) (text : String) (args : List String)
    (now : ℚ) (h : ¬(now - p.last_status > 1/10)) :
    p.status text args now = (p, []) := by
  unfold Progress.status
  rw [if_neg h]

/-- C5: with no explicit level set on the root logger (`_level = NOTSET`),
the effective level is `min(context.log_level, INFO)` — WARNING resolves
to INFO and DEBUG resolves to DEBUG — while any explicitly set (nonzero)
level wins regardless of the global value. -/
theorem root_level_resolution :
    (∀ g : Nat, rootlogger_level NOTSET g = min g INFO) ∧
    rootlogger_level NOTSET WARNING = INFO ∧
    rootlogger_level NOTSET DEBUG = DEBUG ∧
    (∀ e g : Nat, e ≠ NOTSET → rootlogger_level e g = e) := by
  refine ⟨fun g => ?_, by decide, by decide, fun e g he => ?_⟩
  · simp [rootlogger_level, NOTSET]
  · simp [rootlogger_level, NOTSET] at he ⊢
    simp [he]

/-- Witness for C5: an explicit ERROR level beats a global DEBUG. -/
theorem root_level_resolution_witness :
    ERROR ≠ NOTSET ∧ rootlogger_level ERROR DEBUG = ERROR :=
  ⟨by decide, root_level_resolution.2.2.2 ERROR DEBUG (by decide)⟩

/-- C8: `Logger.error` emits exactly one ERROR-level record tagged
`error` and then unconditionally raises a `PwnlibException` carrying
`message % args` — for every input the outcome is the exception, never a
normal return. -/
theorem error_always_raises (message : String) (args : List String) :
    (Logger.error message args).1 =
      [Logger._log ERROR message args (some "error") false] ∧
    (∀ r ∈ (Logger.error message args).1,
      r.level = ERROR ∧ r.msgtype = some "error") ∧
    (Logger.error message args).2 =
      Except.error ⟨pyFmt message args⟩ := by
  refine ⟨rfl, ?_, rfl⟩
  intro r hr
  simp [Logger.error, Logger._log] at hr
  simp [hr, Logger._log]

/-- Witness for C8: the single record of `Logger.error "oops %s" ["x"]`
is at ERROR level and tagged `error`. -/
theorem error_always_raises_witness :
    (Logger._log ERROR "oops %s" ["x"] (some "error") false).level = ERROR ∧
    (Logger._log ERROR "oops %s" ["x"] (some "error") false).msgtype =
      some "error" :=
  (error_always_raises "oops %s" ["x"]).2.1
    (Logger._log ERROR "oops %s" ["x"] (some "error") false) (by decide)

/-- C6: a record emitted by a `Progress` operation with non-empty base
message and non-empty status has message `<base>: <status>`; with an
empty base the message is just the status; and the `Progress` created
with base `"Trying"` and first status `"connecting"` initially emits a
record rendering `"Trying: connecting"`. -/
theorem progress_message_composition (p : Progress) (st : String)
    (args : List String) (mt : String) (hb : p._msg ≠ "") (hs : st ≠ "") :
    (∀ r ∈ p._log st args mt, r.msg = p._msg ++ ": " ++ st) ∧
    (∀ q : Progress, q._msg = "" → ∀ r ∈ q._log st args mt, r.msg = st) ∧
    (∀ r ∈ (Progress.__init__ "Trying" "connecting" INFO []).2,
      r.getMessage = "Trying: connecting") := by
  refine ⟨?_, ?_, by decide⟩
  · intro r hr
    simp [Progress._log, hb, hs, Logger._log] at hr
    simp [hr.2]
  · intro q hq r hr
    simp [Progress._log, hq, Logger._log] at hr
    simp [hr.2]

/-- Witness for C6: a live `Progress` with base `"Trying"` logging status
`"connecting"` produces the message `"Trying: connecting"`. -/
theorem progress_message_composition_witness :
    (Logger._log INFO "Trying: connecting" [] (some "status") true).msg =
      "Trying" ++ ": " ++ "connecting" :=
  (progress_message_composition ⟨"Trying", "", INFO, false, 0⟩
      "connecting" [] "status" (by decide) (by decide)).1
    (Logger._log INFO "Trying: connecting" [] (some "status") true)
    (by decide)

/-- C10: a record emitted by a `Progress` operation with non-empty base
message and empty status text carries exactly the base message (no
`': '` separator), and a `Progress` created with the default empty status
initially emits a record rendering just its base message. -/
theorem progress_empty_status_message (p : Progress) (args : List String)
    (mt : String) (hb : p._msg ≠ "") :
    (∀ r ∈ p._log "" args mt, r.msg = p._msg) ∧
    (∀ r ∈ (Progress.__init__ "Working" "" INFO []).2,
      r.getMessage = "Working") := by
  refine ⟨?_, by decide⟩
  intro r hr
  simp [Progress._log, Logger._log] at hr
  simp [hr.2]

/-- Witness for C10: logging an empty status on a live `Progress` with
base `"Working"` yields the message `"Working"`. -/
theorem progress_empty_status_message_witness :
    (Logger._log INFO "Working" [] (some "status") true).msg = "Working" :=
  (progress_empty_status_message ⟨"Working", "", INFO, false, 0⟩ []
      "status" (by decide)).1
    (Logger._log INFO "Working" [] (some "status") true) (by decide)

/-- A wall-clock instant comfortably past the throttle threshold. -/
theorem time_fact_large : (1000 : ℚ) - 0 > 1/10 := by norm_num

/-- An elapsed time of 50 ms does not exceed the 100 ms threshold. -/
theorem time_fact_small : ¬((5/100 : ℚ) - 0 > 1/10) := by norm_num

/-- A wall-clock instant of 0.12 s is past the 0.1 s threshold. -/
theorem time_fact_mid : (1/10 : ℚ) < 12/100 := by norm_num

/-- C1 (amended): for an Active `Progress`, a `status(text)` call more
than 100 ms after the last accepted update records the call time as the
new `last_status` timestamp and emits exactly one record tagged `status`
at the progress level, carrying a back-reference — but the stored status
text `_status` is not updated (it keeps its previous value); a call
within the 100 ms window emits no record and changes no state. -/
theorem status_throttle (p : Progress) (text : String)
    (args : List String) (now : ℚ) (hact : p._stopped = false) :
    (now - p.last_status > 1/10 →
      p.status text args now =
        ({ p with last_status := now },
         [{ level := p._level,
            msg := (if p._msg ≠ "" ∧ text ≠ "" then p._msg ++ ": "
                    else p._msg) ++ text,
            args := args, msgtype := some "status",
            progressRef := true }])) ∧
    (¬(now - p.last_status > 1/10) → p.status text args now = (p, [])) := by
  constructor
  · intro h
    rw [status_accept p text args now h]
    simp [Progress._log, hact, Logger._log]
  · exact fun h => status_reject p text args now h

/-- Witness for C1: an Active `Progress` with `last_status = 0` accepts a
status update at t = 1000 s (timestamp recorded, one `status` record,
`_status` left at its old value `""`), and drops one at t = 0.05 s. -/
theorem status_throttle_witness :
    (Progress.mk "Trying" "" INFO false 0).status "connecting" [] 1000 =
      (Progress.mk "Trying" "" INFO false 1000,
       [Record.mk INFO "Trying: connecting" [] (some "status") true]) ∧
    (Progress.mk "Trying" "" INFO false 0).status "c2" [] (5/100) =
      (Progress.mk "Trying" "" INFO false 0, []) :=
  ⟨(status_throttle (Progress.mk "Trying" "" INFO false 0) "connecting"
      [] 1000 rfl).1 time_fact_large,
   (status_throttle (Progress.mk "Trying" "" INFO false 0) "c2"
      [] (5/100) rfl).2 time_fact_small⟩

/-- Counterexample to C1 as stated: at t = 1000 s, more than 100 ms past
`last_status = 0`, the update is accepted (one record emitted), yet the
stored status text still holds the construction value `"init"`, not the
new text `"connecting"` — `Progress.status` never writes `_status`. -/
theorem status_text_not_stored_counterexample :
    (Progress.mk "Trying" "init" INFO false 0)._stopped = false ∧
    (1000 : ℚ) - (Progress.mk "Trying" "init" INFO false 0).last_status >
      1/10 ∧
    ((Progress.mk "Trying" "init" INFO false 0).status "connecting" []
      1000).2.length = 1 ∧
    ((Progress.mk "Trying" "init" INFO false 0).status "connecting" []
      1000).1._status = "init" ∧
    "init" ≠ "connecting" := by
  have h : (1000 : ℚ) -
      (Progress.mk "Trying" "init" INFO false 0).last_status > 1/10 := by
    show (1000 : ℚ) - 0 > 1/10
    norm_num
  refine ⟨rfl, h, ?_, ?_, by decide⟩
  · rw [status_accept _ _ _ _ h]
    simp [Progress._log, Logger._log]
  · rw [status_accept _ _ _ _ h]

/-- C2 (amended): once `_stopped` is true, every subsequent `status`,
`success` or `failure` call emits zero records; `success` and `failure`
leave the state exactly unchanged, and `status` leaves the base message,
status text, level and stopped flag unchanged — though it may still
overwrite the `last_status` timestamp. -/
theorem stopped_idempotence (p : Progress) (t1 t2 t3 : String)
    (a1 a2 a3 : List String) (now : ℚ) (h : p._stopped = true) :
    ((p.status t1 a1 now).2 = [] ∧
     (p.status t1 a1 now).1._msg = p._msg ∧
     (p.status t1 a1 now).1._status = p._status ∧
     (p.status t1 a1 now).1._level = p._level ∧
     (p.status t1 a1 now).1._stopped = true) ∧
    p.success t2 a2 = (p, []) ∧
    p.failure t3 a3 = (p, []) := by
  obtain ⟨m, s, l, st, t⟩ := p
  subst h
  refine ⟨?_, ?_, ?_⟩
  · unfold Progress.status
    split <;> simp [Progress._log]
  · simp [Progress.success, Progress._log]
  · simp [Progress.failure, Progress._log]

/-- Witness for C2: on a stopped `Progress`, a `status` call at t = 7 s
emits nothing and preserves message, status text, level and stopped flag,
and `success`/`failure` are exact no-ops. -/
theorem stopped_idempotence_witness :
    (((Progress.mk "t" "s" INFO true 0).status "x" [] 7).2 = [] ∧
     ((Progress.mk "t" "s" INFO true 0).status "x" [] 7).1._msg = "t" ∧
     ((Progress.mk "t" "s" INFO true 0).status "x" [] 7).1._status = "s" ∧
     ((Progress.mk "t" "s" INFO true 0).status "x" [] 7).1._level = INFO ∧
     ((Progress.mk "t" "s" INFO true 0).status "x" [] 7).1._stopped =
       true) ∧
    (Progress.mk "t" "s" INFO true 0).success "Done" [] =
      (Progress.mk "t" "s" INFO true 0, []) ∧
    (Progress.mk "t" "s" INFO true 0).failure "Failed" [] =
      (Progress.mk "t" "s" INFO true 0, []) :=
  stopped_idempotence (Progress.mk "t" "s" INFO true 0) "x" "Done"
    "Failed" [] [] [] 7 rfl

/-- Counterexample to C2 as stated: a `status` call on a stopped
`Progress` at t = 7 s emits no record but still overwrites the stored
`last_status` timestamp (0 becomes 7), so not every stored attribute is
left unchanged. -/
theorem stopped_state_change_counterexample :
    (Progress.mk "t" "" INFO true 0)._stopped = true ∧
    ((Progress.mk "t" "" INFO true 0).status "x" [] 7).2 = [] ∧
    (Progress.mk "t" "" INFO true 0).last_status = 0 ∧
    ((Progress.mk "t" "" INFO true 0).status "x" [] 7).1.last_status = 7 ∧
    (7 : ℚ) ≠ 0 := by
  have h : (7 : ℚ) - (Progress.mk "t" "" INFO true 0).last_status >
      1/10 := by
    show (7 : ℚ) - 0 > 1/10
    norm_num
  refine ⟨rfl, ?_, rfl, ?_, by norm_num⟩
  · rw [status_accept _ _ _ _ h]
    simp [Progress._log]
  · rw [status_accept _ _ _ _ h]

/-- C9: the `Progress` constructor emits exactly one initial `status`
record and leaves `last_status` at 0, so the first explicit `status()`
call emits a record at any wall-clock instant past 0.1 s — in
particular even within 100 ms of construction, the construction-time
emission never throttles it. -/
theorem init_resets_last_status (msg status : String) (level : Nat)
    (args : List String) :
    (Progress.__init__ msg status level args).1.last_status = 0 ∧
    (Progress.__init__ msg status level args).2.length = 1 ∧
    (∀ r ∈ (Progress.__init__ msg status level args).2,
      r.msgtype = some "status") ∧
    (∀ (text : String) (targs : List String) (now : ℚ), 1/10 < now →
      ((Progress.__init__ msg status level args).1.status text targs
        now).2.length = 1) := by
  refine ⟨rfl, by simp [Progress.__init__, Progress._log, Logger._log],
    ?_, ?_⟩
  · intro r hr
    simp [Progress.__init__, Progress._log, Logger._log] at hr
    simp [hr]
  · intro text targs now hnow
    have h : now - (Progress.__init__ msg status level args).1.last_status
        > 1/10 := by
      show now - 0 > 1/10
      linarith
    rw [status_accept _ _ _ _ h]
    simp [Progress._log, Progress.__init__, Logger._log]

/-- Witness for C9: after constructing a `Progress`, a first `status()`
call at t = 0.12 s — within 100 ms of any construction instant past
0.02 s — still emits a record. -/
theorem init_resets_last_status_witness :
    ((Progress.__init__ "Trying" "" INFO []).1.status "At 0" []
      (12/100)).2.length = 1 :=
  (init_resets_last_status "Trying" "" INFO []).2.2.2 "At 0" [] (12/100)
    time_fact_mid

/-- Records produced by `Progress._log` carry the requested tag. -/
theorem _log_tag (p : Progress) (st : String) (a : List String)
    (mt : String) : ∀ r ∈ p._log st a mt, r.msgtype = some mt := by
  intro r hr
  unfold Progress._log at hr
  split at hr
  · simp at hr
  · simp [Logger._log] at hr
    simp [hr]

/-- On a live `Progress`, `_log` emits exactly one record: the composed
message at the progress level with the back-reference set. -/
theorem _log_live (p : Progress) (st : String) (a : List String)
    (mt : String) (h : p._stopped = false) :
    p._log st a mt =
      [Logger._log p._level
        ((if p._msg ≠ "" ∧ st ≠ "" then p._msg ++ ": " else p._msg) ++ st)
        a (some mt) true] := by
  unfold Progress._log
  rw [if_neg (by simp [h])]

/-- `status` never changes the stopped flag. -/
theorem status_stopped_eq (p : Progress) (t : String) (a : List String)
    (n : ℚ) : (p.status t a n).1._stopped = p._stopped := by
  unfold Progress.status
  split <;> rfl

/-- All records emitted by `status` are tagged `status`. -/
theorem status_tag (p : Progress) (t : String) (a : List String)
    (n : ℚ) : ∀ r ∈ (p.status t a n).2, r.msgtype = some "status" := by
  intro r hr
  unfold Progress.status at hr
  split at hr
  · exact _log_tag _ _ _ _ r hr
  · simp at hr

/-- A body of status updates keeps the stopped flag and tags all its
records `status`. -/
theorem runStatuses_spec (body : List (String × List String × ℚ)) :
    ∀ p : Progress, ((runStatuses p body).1._stopped = p._stopped ∧
      ∀ r ∈ (runStatuses p body).2, r.msgtype = some "status") := by
  induction body with
  | nil =>
    intro p
    exact ⟨rfl, by intro r hr; simp [runStatuses] at hr⟩
  | cons step rest ih =>
    intro p
    obtain ⟨t, a, n⟩ := step
    constructor
    · show (runStatuses (p.status t a n).1 rest).1._stopped = p._stopped
      rw [(ih _).1, status_stopped_eq]
    · intro r hr
      have hr' : r ∈ (p.status t a n).2 ∨
          r ∈ (runStatuses (p.status t a n).1 rest).2 := by
        simpa [runStatuses] using hr
      rcases hr' with h | h
      · exact status_tag _ _ _ _ r h
      · exact (ih _).2 r h

/-- A list of records all tagged `tg` contains none tagged `tg2 ≠ tg`. -/
theorem countP_tag_zero (l : List Record) (tg tg2 : String)
    (h : ∀ r ∈ l, r.msgtype = some tg) (hne : tg ≠ tg2) :
    l.countP (fun r => r.msgtype == some tg2) = 0 := by
  rw [List.countP_eq_zero]
  intro r hr
  simp [h r hr, hne]

/-- The record stream of a scoped run splits into the construction
records, the body records and the exit records. -/
theorem withProgress_records (msg status : String) (level : Nat)
    (args : List String) (body : List (String × List String × ℚ))
    (exc_typ : Option String) :
    (withProgress msg status level args body exc_typ).2 =
      (Progress.__init__ msg status level args).2 ++
      (runStatuses (Progress.__init__ msg status level args).1 body).2 ++
      (Progress.__exit__
        (runStatuses (Progress.__init__ msg status level args).1 body).1
        exc_typ).2 := rfl

/-- C3: a `Progress` used as a scope-managed resource calls `success()`
on normal exit and `failure()` on exit via an in-flight exception; for a
scope body that only issues status updates, the error path emits exactly
one `failure` record and no `success` record, and the normal path emits
exactly one `success` record and no `failure` record. -/
theorem scoped_exit (msg status : String) (level : Nat)
    (args : List String) (body : List (String × List String × ℚ))
    (e : String) :
    (∀ q : Progress, Progress.__exit__ q none = q.success "Done" []) ∧
    (∀ (q : Progress) (es : String),
      Progress.__exit__ q (some es) = q.failure "Failed" []) ∧
    ((withProgress msg status level args body (some e)).2.countP
        (fun r => r.msgtype == some "failure") = 1 ∧
      (withProgress msg status level args body (some e)).2.countP
        (fun r => r.msgtype == some "success") = 0) ∧
    ((withProgress msg status level args body none).2.countP
        (fun r => r.msgtype == some "success") = 1 ∧
      (withProgress msg status level args body none).2.countP
        (fun r => r.msgtype == some "failure") = 0) := by
  have hini_tag : ∀ r ∈ (Progress.__init__ msg status level args).2,
      r.msgtype = some "status" := by
    intro r hr
    have hr' : r ∈ (Progress.mk msg status level false 0)._log status
        args "status" := hr
    exact _log_tag _ _ _ _ r hr'
  have hmid := runStatuses_spec body (Progress.__init__ msg status level
    args).1
  have hstop : (runStatuses (Progress.__init__ msg status level args).1
      body).1._stopped = false := by
    rw [hmid.1]; rfl
  refine ⟨fun q => rfl, fun q es => rfl, ?_, ?_⟩
  · have hexit : (Progress.__exit__ (runStatuses (Progress.__init__ msg
        status level args).1 body).1 (some e)).2 =
        [Logger._log (runStatuses (Progress.__init__ msg status level
            args).1 body).1._level
          ((if (runStatuses (Progress.__init__ msg status level
                args).1 body).1._msg ≠ "" ∧ "Failed" ≠ "" then
              (runStatuses (Progress.__init__ msg status level
                args).1 body).1._msg ++ ": "
            else (runStatuses (Progress.__init__ msg status level
                args).1 body).1._msg) ++ "Failed")
          [] (some "failure") true] := by
      show (runStatuses (Progress.__init__ msg status level args).1
          body).1._log "Failed" [] "failure" = _
      rw [_log_live _ _ _ _ hstop]
    rw [withProgress_records, hexit]
    constructor
    · simp only [List.countP_append]
      rw [countP_tag_zero _ "status" "failure" hini_tag (by decide),
        countP_tag_zero _ "status" "failure" hmid.2 (by decide)]
      simp [Logger._log]
    · simp only [List.countP_append]
      rw [countP_tag_zero _ "status" "success" hini_tag (by decide),
        countP_tag_zero _ "status" "success" hmid.2 (by decide)]
      simp [Logger._log]
  · have hexit : (Progress.__exit__ (runStatuses (Progress.__init__ msg
        status level args).1 body).1 none).2 =
        [Logger._log (runStatuses (Progress.__init__ msg status level
            args).1 body).1._level
          ((if (runStatuses (Progress.__init__ msg status level
                args).1 body).1._msg ≠ "" ∧ "Done" ≠ "" then
              (runStatuses (Progress.__init__ msg status level
                args).1 body).1._msg ++ ": "
            else (runStatuses (Progress.__init__ msg status level
                args).1 body).1._msg) ++ "Done")
          [] (some "success") true] := by
      show (runStatuses (Progress.__init__ msg status level args).1
          body).1._log "Done" [] "success" = _
      rw [_log_live _ _ _ _ hstop]
    rw [withProgress_records, hexit]
    constructor
    · simp only [List.countP_append]
      rw [countP_tag_zero _ "status" "success" hini_tag (by decide),
        countP_tag_zero _ "status" "success" hmid.2 (by decide)]
      simp [Logger._log]
    · simp only [List.countP_append]
      rw [countP_tag_zero _ "status" "failure" hini_tag (by decide),
        countP_tag_zero _ "status" "failure" hmid.2 (by decide)]
      simp [Logger._log]

/-- `info_once` on an already-seen rendered string is a silent no-op. -/
theorem info_once_seen (s : OnceState) (message : String)
    (args : List String) (h : pyFmt message args ∈ s._one_time_infos) :
    Logger.info_once s message args = (s, []) := by
  simp only [Logger.info_once]
  rw [if_pos h]

/-- `info_once` on an unseen rendered string adds it to the shared set
and emits one `info_once` record. -/
theorem info_once_unseen (s : OnceState) (message : String)
    (args : List String) (h : pyFmt message args ∉ s._one_time_infos) :
    Logger.info_once s message args =
      ({ s with _one_time_infos :=
          insert (pyFmt message args) s._one_time_infos },
       [Logger._log INFO message args (some "info_once") false]) := by
  simp only [Logger.info_once]
  rw [if_neg h]

/-- `warning_once` on an already-seen rendered string is a no-op. -/
theorem warning_once_seen (s : OnceState) (message : String)
    (args : List String) (h : pyFmt message args ∈ s._one_time_warnings) :
    Logger.warning_once s message args = (s, []) := by
  simp only [Logger.warning_once]
  rw [if_pos h]

/-- `warning_once` on an unseen rendered string adds it to the shared
set and emits one `warning_once` record. -/
theorem warning_once_unseen (s : OnceState) (message : String)
    (args : List String)
    (h : pyFmt message args ∉ s._one_time_warnings) :
    Logger.warning_once s message args =
      ({ s with _one_time_warnings :=
          insert (pyFmt message args) s._one_time_warnings },
       [Logger._log WARNING message args (some "warning_once") false]) := by
  simp only [Logger.warning_once]
  rw [if_neg h]

/-- Over any trace, at most `1` `info_once` record rendering to `m` is
emitted beyond what the starting state already saw. -/
theorem runOnce_info_count (tr : List OnceCall) :
    ∀ (s : OnceState) (m : String),
      ((runOnce s tr).2.countP
        (fun r => r.msgtype == some "info_once" &&
          (pyFmt r.msg r.args == m))) ≤
      (if m ∈ s._one_time_infos then 0 else 1) := by
  induction tr with
  | nil => intro s m; simp [runOnce]
  | cons c rest ih =>
    intro s m
    cases c with
    | info name msg args =>
      have hrec : (runOnce s (OnceCall.info name msg args :: rest)).2 =
          (Logger.info_once s msg args).2 ++
          (runOnce (Logger.info_once s msg args).1 rest).2 := rfl
      rw [hrec, List.countP_append]
      by_cases hm : pyFmt msg args ∈ s._one_time_infos
      · rw [info_once_seen s msg args hm]
        simpa using ih s m
      · rw [info_once_unseen s msg args hm]
        dsimp only
        by_cases he : pyFmt msg args = m
        · have h1 : List.countP
              (fun r => r.msgtype == some "info_once" &&
                (pyFmt r.msg r.args == m))
              [Logger._log INFO msg args (some "info_once") false] = 1 := by
            simp [Logger._log, he]
          rw [h1]
          have h2 := ih { s with _one_time_infos := insert (pyFmt msg args) s._one_time_infos } m
          dsimp only at h2
          rw [if_pos (show m ∈ insert (pyFmt msg args) s._one_time_infos
            by rw [he]; exact Finset.mem_insert_self m _)] at h2
          rw [if_neg (he ▸ hm)]
          omega
        · have h1 : List.countP
              (fun r => r.msgtype == some "info_once" &&
                (pyFmt r.msg r.args == m))
              [Logger._log INFO msg args (some "info_once") false] = 0 := by
            simp [Logger._log, he]
          rw [h1]
          have h2 := ih { s with _one_time_infos := insert (pyFmt msg args) s._one_time_infos } m
          dsimp only at h2
          by_cases hm2 : m ∈ s._one_time_infos
          · rw [if_pos (Finset.mem_insert_of_mem hm2)] at h2
            rw [if_pos hm2]
            omega
          · have hnm : m ∉ insert (pyFmt msg args) s._one_time_infos := by
              rw [Finset.mem_insert]
              rintro (h | h)
              · exact he h.symm
              · exact hm2 h
            rw [if_neg hnm] at h2
            rw [if_neg hm2]
            omega
    | warning name msg args =>
      have hrec : (runOnce s (OnceCall.warning name msg args :: rest)).2 =
          (Logger.warning_once s msg args).2 ++
          (runOnce (Logger.warning_once s msg args).1 rest).2 := rfl
      rw [hrec, List.countP_append]
      by_cases hm : pyFmt msg args ∈ s._one_time_warnings
      · rw [warning_once_seen s msg args hm]
        simpa using ih s m
      · rw [warning_once_unseen s msg args hm]
        have h1 : List.countP
            (fun r => r.msgtype == some "info_once" &&
              (pyFmt r.msg r.args == m))
            [Logger._log WARNING msg args (some "warning_once") false] =
            0 := by
          simp [Logger._log]
        rw [h1]
        have h2 := ih { s with _one_time_warnings := insert (pyFmt msg args) s._one_time_warnings } m
        simpa using h2

/-- Over any trace, at most `1` `warning_once` record rendering to `m`
is emitted beyond what the starting state already saw. -/
theorem runOnce_warning_count (tr : List OnceCall) :
    ∀ (s : OnceState) (m : String),
      ((runOnce s tr).2.countP
        (fun r => r.msgtype == some "warning_once" &&
          (pyFmt r.msg r.args == m))) ≤
      (if m ∈ s._one_time_warnings then 0 else 1) := by
  induction tr with
  | nil => intro s m; simp [runOnce]
  | cons c rest ih =>
    intro s m
    cases c with
    | warning name msg args =>
      have hrec : (runOnce s (OnceCall.warning name msg args :: rest)).2 =
          (Logger.warning_once s msg args).2 ++
          (runOnce (Logger.warning_once s msg args).1 rest).2 := rfl
      rw [hrec, List.countP_append]
      by_cases hm : pyFmt msg args ∈ s._one_time_warnings
      · rw [warning_once_seen s msg args hm]
        simpa using ih s m
      · rw [warning_once_unseen s msg args hm]
        dsimp only
        by_cases he : pyFmt msg args = m
        · have h1 : List.countP
              (fun r => r.msgtype == some "warning_once" &&
                (pyFmt r.msg r.args == m))
              [Logger._log WARNING msg args (some "warning_once")
                false] = 1 := by
            simp [Logger._log, he]
          rw [h1]
          have h2 := ih { s with _one_time_warnings := insert (pyFmt msg args) s._one_time_warnings } m
          dsimp only at h2
          rw [if_pos (show m ∈ insert (pyFmt msg args) s._one_time_warnings
            by rw [he]; exact Finset.mem_insert_self m _)] at h2
          rw [if_neg (he ▸ hm)]
          omega
        · have h1 : List.countP
              (fun r => r.msgtype == some "warning_once" &&
                (pyFmt r.msg r.args == m))
              [Logger._log WARNING msg args (some "warning_once")
                false] = 0 := by
            simp [Logger._log, he]
          rw [h1]
          have h2 := ih { s with _one_time_warnings := insert (pyFmt msg args) s._one_time_warnings } m
          dsimp only at h2
          by_cases hm2 : m ∈ s._one_time_warnings
          · rw [if_pos (Finset.mem_insert_of_mem hm2)] at h2
            rw [if_pos hm2]
            omega
          · have hnm : m ∉ insert (pyFmt msg args) s._one_time_warnings := by
              rw [Finset.mem_insert]
              rintro (h | h)
              · exact he h.symm
              · exact hm2 h
            rw [if_neg hnm] at h2
            rw [if_neg hm2]
            omega
    | info name msg args =>
      have hrec : (runOnce s (OnceCall.info name msg args :: rest)).2 =
          (Logger.info_once s msg args).2 ++
          (runOnce (Logger.info_once s msg args).1 rest).2 := rfl
      rw [hrec, List.countP_append]
      by_cases hm : pyFmt msg args ∈ s._one_time_infos
      · rw [info_once_seen s msg args hm]
        simpa using ih s m
      · rw [info_once_unseen s msg args hm]
        have h1 : List.countP
            (fun r => r.msgtype == some "warning_once" &&
              (pyFmt r.msg r.args == m))
            [Logger._log INFO msg args (some "info_once") false] = 0 := by
          simp [Logger._log]
        rw [h1]
        have h2 := ih { s with _one_time_infos := insert (pyFmt msg args) s._one_time_infos } m
        simpa using h2

/-- C4: a one-time call whose message renders to an already-seen string
is silently skipped; otherwise the rendered string joins the shared set
(regardless of which `Logger` instance was used) and one record is
emitted, so over any process-wide trace each rendered string yields at
most one `info_once` (respectively `warning_once`) record; three
`info_once("User %s connected", "bob")` calls from different loggers
emit one record, while `"bob"` followed by `"alice"` emits two. -/
theorem once_dedup :
    (∀ (s : OnceState) (message : String) (args : List String),
      (pyFmt message args ∈ s._one_time_infos →
        Logger.info_once s message args = (s, [])) ∧
      (pyFmt message args ∉ s._one_time_infos →
        Logger.info_once s message args =
          ({ s with _one_time_infos := insert (pyFmt message args) s._one_time_infos },
           [Logger._log INFO message args (some "info_once") false]))) ∧
    (∀ (tr : List OnceCall) (m : String),
      (runOnce initialOnceState tr).2.countP
        (fun r => r.msgtype == some "info_once" &&
          (pyFmt r.msg r.args == m)) ≤ 1) ∧
    (∀ (tr : List OnceCall) (m : String),
      (runOnce initialOnceState tr).2.countP
        (fun r => r.msgtype == some "warning_once" &&
          (pyFmt r.msg r.args == m)) ≤ 1) ∧
    (runOnce initialOnceState
      [OnceCall.info "a" "User %s connected" ["bob"],
       OnceCall.info "b" "User %s connected" ["bob"],
       OnceCall.info "c" "User %s connected" ["bob"]]).2.length = 1 ∧
    (runOnce initialOnceState
      [OnceCall.info "a" "User %s connected" ["bob"],
       OnceCall.info "a" "User %s connected" ["alice"]]).2.length = 2 := by
  refine ⟨fun s message args =>
    ⟨info_once_seen s message args, info_once_unseen s message args⟩,
    fun tr m => le_trans (runOnce_info_count tr initialOnceState m)
      (by split <;> omega),
    fun tr m => le_trans (runOnce_warning_count tr initialOnceState m)
      (by split <;> omega),
    by decide, by decide⟩

/-- Witness for C4: the first `info_once("User %s connected", "bob")`
on the pristine shared state inserts the rendered string and emits one
record. -/
theorem once_dedup_witness :
    Logger.info_once initialOnceState "User %s connected" ["bob"] =
      ({ initialOnceState with _one_time_infos := insert (pyFmt "User %s connected" ["bob"]) initialOnceState._one_time_infos },
       [Logger._log INFO "User %s connected" ["bob"] (some "info_once")
         false]) :=
  (once_dedup.1 initialOnceState "User %s connected" ["bob"]).2
    (by decide)

/-- A successful `lookupG` returns one of the table's values. -/
theorem lookupG_mem : ∀ (l : List (String × String)) (t g : String),
    lookupG l t = some g → g ∈ l.map Prod.snd := by
  intro l
  induction l with
  | nil => intro t g h; simp [lookupG] at h
  | cons p rest ih =>
    intro t g h
    obtain ⟨k, v⟩ := p
    simp only [lookupG] at h
    split at h
    · simp at h
      simp [h]
    · simpa using Or.inr (ih t g h)

/-- Characters of an appended string. -/
theorem data_append' (a b : String) : (a ++ b).data = a.data ++ b.data := by
  cases a
  cases b
  rfl

/-- Rebuilding a string from a character prefix of another string. -/
theorem mk_data_append (a : String) (b : List Char) :
    String.mk (a.data ++ b) = a ++ String.mk b := by
  cases a
  rfl

/-- `joinL` distributes a leading character of the first chunk. -/
theorem joinL_cons_cons (sep : List Char) (c : Char) (l : List Char)
    (ls : List (List Char)) :
    joinL sep ((c :: l) :: ls) = c :: joinL sep (l :: ls) := by
  cases ls with
  | nil => rfl
  | cons y ys => simp [joinL]

/-- Unfolding `splitlinesList` on a non-newline head character. -/
theorem splitlinesList_cons_other (c : Char) (cs : List Char)
    (h1 : c ≠ '\n') (h2 : c ≠ '\r') :
    splitlinesList (c :: cs) =
      match splitlinesList cs with
      | [] => [[c]]
      | l :: ls => (c :: l) :: ls := by
  rw [splitlinesList.eq_def]
  split <;> simp_all

/-- Joining the `splitlines` of `p ++ m` for a chunk `p` free of line
boundaries prepends `p` to the join of the `splitlines` of `m`. -/
theorem join_split_append (sep : List Char) (p : List Char) :
    ∀ (m : List Char), (∀ c ∈ p, c ≠ '\n' ∧ c ≠ '\r') →
      joinL sep (splitlinesList (p ++ m)) =
        p ++ joinL sep (splitlinesList m) := by
  induction p with
  | nil => intro m hp; simp
  | cons c p' ih =>
    intro m hp
    have hc := hp c (List.mem_cons_self c p')
    have hp' : ∀ d ∈ p', d ≠ '\n' ∧ d ≠ '\r' :=
      fun d hd => hp d (List.mem_cons_of_mem c hd)
    rw [List.cons_append,
      splitlinesList_cons_other c (p' ++ m) hc.1 hc.2]
    cases hsp : splitlinesList (p' ++ m) with
    | nil =>
      have h0 := ih m hp'
      rw [hsp] at h0
      simp only [joinL] at h0
      obtain ⟨hp0, hX⟩ := List.append_eq_nil.mp h0.symm
      subst hp0
      simp [joinL, hX]
    | cons l ls =>
      rw [joinL_cons_cons]
      have h0 := ih m hp'
      rw [hsp] at h0
      rw [h0]
      simp

/-- The glyphs of the prefix table contain no line boundaries. -/
theorem table_glyphs_clean : ∀ v ∈ _msgtype_pfxs.map Prod.snd,
    ∀ c ∈ v.data, c ≠ '\n' ∧ c ≠ '\r' := by decide

/-- C7: for a record whose tag is in the prefix table, `Formatter.format`
prepends `[<glyph>] ` and joins the `splitlines()` of the rendered
message with a newline plus exactly four spaces, so the two-line message
`"line one\nline two"` tagged `info` formats to
`"[*] line one\n    line two"`. -/
theorem formatter_multiline (r : Record) (t g : String)
    (ht : r.msgtype = some t) (hg : lookupG _msgtype_pfxs t = some g) :
    Formatter.format r =
      "[" ++ g ++ "] " ++
        String.mk (joinL Formatter.nlindent.data
          (splitlinesList r.getMessage.data)) ∧
    Formatter.format
      (Record.mk INFO "line one\nline two" [] (some "info") false) =
      "[*] line one\n    line two" := by
  refine ⟨?_, by decide⟩
  have hclean : ∀ c ∈ ("[" ++ g ++ "] ").data, c ≠ '\n' ∧ c ≠ '\r' := by
    intro c hcmem
    rw [data_append', data_append'] at hcmem
    rcases List.mem_append.mp hcmem with h | h
    · rcases List.mem_append.mp h with h2 | h2
      · simp at h2
        subst h2
        decide
      · exact table_glyphs_clean g (lookupG_mem _ t g hg) c h2
    · simp at h
      rcases h with h | h <;> (subst h; decide)
  simp only [Formatter.format]
  rw [ht]
  simp only []
  rw [hg]
  simp only []
  rw [data_append', join_split_append _ _ _ hclean, mk_data_append]

/-- Witness for C7: the two-line `info` record formats to the glyph
prefix on the first line with the second line joined after a newline and
four spaces. -/
theorem formatter_multiline_witness :
    Formatter.format
      (Record.mk INFO "line one\nline two" [] (some "info") false) =
      "[" ++ "*" ++ "] " ++
        String.mk (joinL Formatter.nlindent.data
          (splitlinesList (Record.mk INFO "line one\nline two" []
            (some "info") false).getMessage.data)) :=
  (formatter_multiline
    (Record.mk INFO "line one\nline two" [] (some "info") false)
    "info" "*" rfl (by decide)).1

end PwnlibLog
